import Mathlib

/-!
Verification of the deno-api-server repository (files `src/mod.js` and
`src/unnamed/part_000`) against its natural-language specification.

The two source files are near-duplicate variants of the same router design:
`src/unnamed/part_000` (called the *extended* variant below) carries
per-route `verify` / `sign` / `login` hook functions and validates them at
registration time, while `src/mod.js` (the *base* variant) carries per-route
truthiness flags combined with process-wide `auth_verify` / `auth_sign`
functions and performs no validation.  Shared machinery (the body decoder,
the response encoder, the error mapper) is identical in both files and is
defined once; the variant-specific parts live in namespaces `Part000` and
`ModJs`.

Strings are Lean `String`s, but all string processing is done through
structural-recursion helpers over `List Char` so that every definition
evaluates inside the kernel.
-/

/-- `listStartsWith s p` is true when `p` is a prefix of `s` (on char lists). -/
def listStartsWith : List Char → List Char → Bool
  | _, [] => true
  | [], _ :: _ => false
  | c :: cs, p :: ps => c == p && listStartsWith cs ps

/-- First occurrence search: `breakOn pat s = some (pre, post)` when
`s = pre ++ pat ++ post` at the first occurrence of `pat`, `none` when `pat`
does not occur in `s`. -/
def breakOn (pat : List Char) : List Char → Option (List Char × List Char)
  | [] => if pat.isEmpty then some ([], []) else none
  | c :: cs =>
    if listStartsWith (c :: cs) pat then some ([], (c :: cs).drop pat.length)
    else
      match breakOn pat cs with
      | some (pre, post) => some (c :: pre, post)
      | none => none

/-- Split a char list on a single separator character (JavaScript
`String.prototype.split` with a one-character separator). -/
def chSplit (sep : Char) : List Char → List (List Char)
  | [] => [[]]
  | c :: rest =>
    match chSplit sep rest with
    | [] => [[]]
    | g :: gs => if c == sep then [] :: g :: gs else (c :: g) :: gs

/-- JavaScript `s.replace(pat, "")`: remove the first occurrence of the
substring `pat` from `s` (identity when `pat` does not occur). -/
def jsReplaceFirst (s pat : String) : String :=
  match breakOn pat.data s.data with
  | some (pre, post) => String.mk (pre ++ post)
  | none => s

/-- JavaScript `s.split(sep)` for a one-character separator, as `String`s. -/
def jsSplitChar (s : String) (sep : Char) : List String :=
  (chSplit sep s.data).map String.mk

/-- The parts of a parsed URL that the router reads. -/
structure ParsedURL where
  pathname : String
  query : String
deriving DecidableEq

/-- Model of the WHATWG `new URL(s)` constructor (an external collaborator of
the router), restricted to what the router reads: it fails (throws, here
`none`) when the scheme or the host is empty or the `://` separator is
missing, and otherwise yields the path (defaulting to `/`) and the query
string. -/
def parseURL (s : String) : Option ParsedURL :=
  match breakOn "://".data s.data with
  | none => none
  | some (scheme, rest) =>
    if scheme.isEmpty then none
    else
      let hostPath :=
        match breakOn "?".data rest with
        | some (hp, _) => hp
        | none => rest
      let query :=
        match breakOn "?".data rest with
        | some (_, q) => q
        | none => []
      let host := hostPath.takeWhile (fun c => !(c == '/'))
      if host.isEmpty then none
      else
        let path := hostPath.drop host.length
        some ⟨String.mk (if path.isEmpty then ['/'] else path), String.mk query⟩

/-- Model of `Object.fromEntries(new URL(u).searchParams)`: the query string
decoded into a flat key/value list (each pair split at its first `=`). -/
def parseQuery (q : String) : List (String × String) :=
  if q.isEmpty then []
  else
    (chSplit '&' q.data).map (fun kv =>
      match breakOn "=".data kv with
      | some (k, v) => (String.mk k, String.mk v)
      | none => (String.mk kv, ""))

/-- JavaScript object used as a string-keyed map, modelled as an insertion
ordered association list. -/
def aget {α : Type} : List (String × α) → String → Option α
  | [], _ => none
  | (k2, v) :: rest, k => if k2 == k then some v else aget rest k

/-- Property assignment `m[k] = v`: overwrite in place, or append. -/
def aset {α : Type} : List (String × α) → String → α → List (String × α)
  | [], k, v => [(k, v)]
  | (k2, w) :: rest, k, v =>
    if k2 == k then (k2, v) :: rest else (k2, w) :: aset rest k v

/-- Response headers, a string-keyed object. -/
def Headers : Type := List (String × String)
deriving DecidableEq

/-- `h[k] = v` on a header object (also models one-property `Object.assign`). -/
def hset (h : Headers) (k v : String) : Headers :=
  aset h k v

/-- A constructed `Response`: body (`none` models a `null`/`undefined` body),
status and headers.  `new Response(body, init)` snapshots the header object,
so a `Resp` value holds the headers it was built with. -/
structure Resp where
  body : Option String
  status : Nat
  headers : Headers
deriving DecidableEq

/-- Runtime JavaScript values a handler can produce (and, in the base
variant, the values route options can carry).  `vBigint` carries the
`toString` image of the bigint, `vObject` carries the `JSON.stringify`
image of the (non-null) object, `vResponse` an already-constructed
response.  `vNumber`, `vSymbol` and `vFunction` are the runtime types the
response encoder has no case for. -/
inductive JSValue where
  | vBigint (s : String)
  | vString (s : String)
  | vNull
  | vUndefined
  | vResponse (r : Resp)
  | vObject (json : String)
  | vBool (b : Bool)
  | vNumber (n : Int)
  | vSymbol
  | vFunction
deriving DecidableEq

/-- JavaScript truthiness of a `JSValue`. -/
def JSValue.truthy : JSValue → Bool
  | .vBigint s => !(s == "0")
  | .vString s => !(s == "")
  | .vNull => false
  | .vUndefined => false
  | .vResponse _ => true
  | .vObject _ => true
  | .vBool b => b
  | .vNumber n => !(n == 0)
  | .vSymbol => true
  | .vFunction => true

/-- `typeof v === "function"`. -/
def JSValue.isCallable : JSValue → Bool
  | .vFunction => true
  | _ => false

/-- Thrown failures: `CustomError` carries a message and an HTTP status
code; every other thrown value is an unclassified error carrying only its
message. -/
inductive Err where
  | customError (msg : String) (status : Nat)
  | jsError (msg : String)
deriving DecidableEq

/-- The first argument handed to a route handler: the decoded query
parameters for GET, a decoded JSON / text / form-data body, or the raw
request object itself when no decoding strategy matches. -/
inductive Payload where
  | query (params : List (String × String))
  | json (j : String)
  | text (s : String)
  | formdata (fd : List (String × String))
  | raw
deriving DecidableEq

/-- Observable per-request events, in order of occurrence: the verify hook
ran, the handler ran, the sign hook ran (with its second argument), the
login hook ran (with its second argument). -/
inductive Event where
  | evVerifyCalled
  | evHandlerCalled
  | evSignCalled (arg : JSValue)
  | evLoginCalled (arg : JSValue)
deriving DecidableEq

/-- An inbound request as the router reads it: `url`, `method`, the
`content-type` header (`none` when absent), and the outcome of each
body-reading operation (`none` models the corresponding promise
rejecting). -/
structure Req where
  url : String
  method : String
  contentType : Option String
  jsonBody : Option String
  textBody : Option String
  formBody : Option (List (String × String))

/-- A route handler: receives the decoded payload, the verify result and
the raw request, and returns a value or throws. -/
def Handler : Type := Payload → JSValue → Req → Except Err JSValue

/-- A verify hook: receives the raw request, returns a value or throws. -/
def VerifyFn : Type := Req → Except Err JSValue

/-- A sign or login hook: receives the response and a value, and returns
the (possibly mutated) response or throws. -/
def SignFn : Type := Resp → JSValue → Except Err Resp

/-- The response encoder: the `switch (true)` over the runtime type of the
handler result.  `hdrs` is the per-request clone of the default headers; the
matching case sets its `Content-Type` and builds the response with the
given default status, except that an already-constructed response is
returned verbatim; a result of any other runtime type throws
`Error("Return type of controller has no defined processor")`. -/
def encode (result : JSValue) (st : Nat) (hdrs : Headers) : Except Err Resp :=
  match result with
  | .vBigint s => .ok ⟨some s, st, hset hdrs "Content-Type" "text/plain"⟩
  | .vString s => .ok ⟨some s, st, hset hdrs "Content-Type" "text/plain"⟩
  | .vNull => .ok ⟨none, st, hset hdrs "Content-Type" "text/plain"⟩
  | .vUndefined => .ok ⟨none, st, hset hdrs "Content-Type" "text/plain"⟩
  | .vResponse r => .ok r
  | .vObject j => .ok ⟨some j, st, hset hdrs "Content-Type" "application/json"⟩
  | .vBool b =>
    .ok ⟨some (if b then "true" else "false"), st,
         hset hdrs "Content-Type" "text/plain"⟩
  | .vNumber _ => .error (.jsError "Return type of controller has no defined processor")
  | .vSymbol => .error (.jsError "Return type of controller has no defined processor")
  | .vFunction => .error (.jsError "Return type of controller has no defined processor")

/-- The body decoder plus handler invocation (identical in both variants):
for GET the original URL is re-parsed and the query decoded; otherwise the
decoding strategy is selected by exact string match on the `content-type`
header, a failing body read throws the corresponding 400 `CustomError`
before the handler runs, and an unmatched content type passes the raw
request itself as the payload.  The event list records whether the handler
was invoked. -/
def handlerStage (h : Handler) (req : Req) (payload : JSValue) :
    Except Err JSValue × List Event :=
  if req.method == "GET" then
    match parseURL req.url with
    | none => (.error (.jsError "Invalid URL"), [])
    | some u => (h (.query (parseQuery u.query)) payload req, [.evHandlerCalled])
  else
    match req.contentType with
    | none => (h .raw payload req, [.evHandlerCalled])
    | some ct =>
      if ct == "application/json" then
        match req.jsonBody with
        | none => (.error (.customError "Request body is not a valid JSON" 400), [])
        | some b => (h (.json b) payload req, [.evHandlerCalled])
      else if ct == "text/plain" then
        match req.textBody with
        | none => (.error (.customError "Request body is not a valid STRING" 400), [])
        | some t => (h (.text t) payload req, [.evHandlerCalled])
      else if ct == "multipart/form-data" then
        match req.formBody with
        | none => (.error (.customError "Request body is not a valid FORMDATA" 400), [])
        | some fd => (h (.formdata fd) payload req, [.evHandlerCalled])
      else (h .raw payload req, [.evHandlerCalled])

/-- What one dispatched request produces: the value handed back to the
listener (`Except.error` models an exception escaping the request callback
uncaught), the value of the shared default-header template after the
request, and the observable event trace. -/
structure DispatchOut where
  result : Except String Resp
  finalDefaults : Headers
  trace : List Event

/-- The `catch` block shared by both variants (the error mapper): a
`CustomError` yields its status and message with
`Object.assign(DEFAULT_HEADERS, { "Content-Type": "text/plain" })` — which
mutates the shared template in place — while any other error yields 500
with the template unchanged. -/
def finishDispatch (dh : Headers) (r : Except Err Resp × List Event) : DispatchOut :=
  match r with
  | (.ok resp, tr) => ⟨.ok resp, dh, tr⟩
  | (.error (.customError msg st), tr) =>
    let dh2 := hset dh "Content-Type" "text/plain"
    ⟨.ok ⟨some msg, st, dh2⟩, dh2, tr⟩
  | (.error (.jsError msg), tr) => ⟨.ok ⟨some msg, 500, dh⟩, dh, tr⟩

/-- The URL string the dispatcher parses: the raw request URL with the
first occurrence of the configured API prefix removed, when one is set. -/
def stripURL (apiPrefix : Option String) (url : String) : String :=
  match apiPrefix with
  | some p => jsReplaceFirst url p
  | none => url

/-- The route key: `"/" + U.pathname.split("/")[1]`. -/
def routeKey (u : ParsedURL) : String :=
  "/" ++ ((jsSplitChar u.pathname '/').getD 1 "")

namespace Part000

/-- A route option value in the extended variant (`src/unnamed/part_000`):
absent (`undefined`), an actual function, or some other — non-callable —
runtime value. -/
inductive HookOpt (α : Type) where
  | undef
  | fn (f : α)
  | nonFn (v : JSValue)

/-- JavaScript truthiness of a route option value. -/
def HookOpt.truthy {α : Type} : HookOpt α → Bool
  | .undef => false
  | .fn _ => true
  | .nonFn v => v.truthy

/-- `typeof opt === "function"` for a route option value. -/
def HookOpt.isCallable {α : Type} : HookOpt α → Bool
  | .fn _ => true
  | _ => false

/-- The registration guard `opt && typeof opt !== "function"`: a provided,
truthy value that is not a function. -/
def HookOpt.badValue {α : Type} : HookOpt α → Bool
  | .nonFn v => v.truthy
  | _ => false

/-- A registered entry of the extended variant. -/
structure MethodEntry where
  handler : Handler
  verify : HookOpt VerifyFn
  sign : HookOpt SignFn
  login : HookOpt SignFn
  raw : JSValue

/-- The per-path method table. -/
def MethodMap : Type := List (String × MethodEntry)

/-- `Router.#ROUTER_MAP` of the extended variant. -/
def RouterMap : Type := List (String × MethodMap)

/-- The options object of `Router.Route` in the extended variant. -/
structure RouteOpts where
  verify : HookOpt VerifyFn
  sign : HookOpt SignFn
  login : HookOpt SignFn
  raw : JSValue

/-- `Router.Route(path, method, handler, { verify, sign, login, raw })` of
the extended variant: each provided truthy non-function hook throws a
configuration `Error`; otherwise the entry is inserted, overwriting any
previous entry for the same path and method. -/
def Route (m : RouterMap) (path method : String) (h : Handler) (opts : RouteOpts) :
    Except String RouterMap :=
  if opts.verify.badValue then
    .error "The \"verify\" option must be a function"
  else if opts.sign.badValue then
    .error "The \"sign\" option must be a function"
  else if opts.login.badValue then
    .error "The \"login\" option must be a function"
  else
    let methods : MethodMap := (aget m path).getD []
    .ok (aset m path (aset methods method ⟨h, opts.verify, opts.sign, opts.login, opts.raw⟩))

/-- `if (entry.verify) payload = await entry.verify(req)` with `payload`
initially `null`; calling a truthy non-function throws a `TypeError`. -/
def verifyStage (entry : MethodEntry) (req : Req) : Except Err JSValue × List Event :=
  if entry.verify.truthy then
    match entry.verify with
    | .fn f =>
      match f req with
      | .error e => (.error e, [.evVerifyCalled])
      | .ok v => (.ok v, [.evVerifyCalled])
    | .nonFn _ => (.error (.jsError "entry.verify is not a function"), [])
    | .undef => (.ok .vNull, [])
  else (.ok .vNull, [])

/-- `if (entry.sign) await entry.sign(response, payload)`: the sign hook
receives the encoded response and the verify result. -/
def signStage (entry : MethodEntry) (resp : Resp) (payload : JSValue) :
    Except Err Resp × List Event :=
  if entry.sign.truthy then
    match entry.sign with
    | .fn f =>
      match f resp payload with
      | .error e => (.error e, [.evSignCalled payload])
      | .ok r2 => (.ok r2, [.evSignCalled payload])
    | .nonFn _ => (.error (.jsError "entry.sign is not a function"), [])
    | .undef => (.ok resp, [])
  else (.ok resp, [])

/-- `if (entry.login) await entry.login(response, result)`: the login hook
receives the response and the handler result. -/
def loginStage (entry : MethodEntry) (resp : Resp) (result : JSValue) :
    Except Err Resp × List Event :=
  if entry.login.truthy then
    match entry.login with
    | .fn f =>
      match f resp result with
      | .error e => (.error e, [.evLoginCalled result])
      | .ok r2 => (.ok r2, [.evLoginCalled result])
    | .nonFn _ => (.error (.jsError "entry.login is not a function"), [])
    | .undef => (.ok resp, [])
  else (.ok resp, [])

/-- The two post-handler hooks in source order: sign, then login. -/
def postHooks (entry : MethodEntry) (resp : Resp) (payload result : JSValue) :
    Except Err Resp × List Event :=
  match signStage entry resp payload with
  | (.error e, tr) => (.error e, tr)
  | (.ok r2, tr1) =>
    match loginStage entry r2 result with
    | (r, tr2) => (r, tr1 ++ tr2)

/-- The try-block up to the encoded response: clone the default headers,
fix the default status (`201` for POST, `200` otherwise), run the verify
stage, the body decoder plus handler, and the encoder; yields the verify
result, the handler result and the encoded response. -/
def preStages (entry : MethodEntry) (req : Req) (dh : Headers) :
    Except Err (JSValue × JSValue × Resp) × List Event :=
  let responseHeaders := dh
  let responseStatus := if req.method == "POST" then 201 else 200
  match verifyStage entry req with
  | (.error e, tr) => (.error e, tr)
  | (.ok payload, tr1) =>
    match handlerStage entry.handler req payload with
    | (.error e, tr2) => (.error e, tr1 ++ tr2)
    | (.ok result, tr2) =>
      match encode result responseStatus responseHeaders with
      | .error e => (.error e, tr1 ++ tr2)
      | .ok resp => (.ok (payload, result, resp), tr1 ++ tr2)

/-- The whole try-block of the request callback. -/
def tryBody (entry : MethodEntry) (req : Req) (dh : Headers) :
    Except Err Resp × List Event :=
  match preStages entry req dh with
  | (.error e, tr) => (.error e, tr)
  | (.ok (payload, result, resp), tr) =>
    match postHooks entry resp payload result with
    | (r, tr2) => (r, tr ++ tr2)

/-- The request callback that `Router.Run` of the extended variant registers with
the listener, with the configured static state (`#API_PREFIX`,
`#ROUTER_MAP`, `#DEFAULT_HEADERS`) passed explicitly.  The URL re-parse and
the OPTIONS / 404 / 405 short-circuits happen before the try-block; only
failures of the try-block reach the error mapper. -/
def serve (apiPrefix : Option String) (rmap : RouterMap) (dh : Headers) (req : Req) :
    DispatchOut :=
  match parseURL (stripURL apiPrefix req.url) with
  | none => ⟨.error "TypeError: Invalid URL", dh, []⟩
  | some u =>
    if req.method == "OPTIONS" then ⟨.ok ⟨none, 200, dh⟩, dh, []⟩
    else
      let path := routeKey u
      match aget rmap path with
      | none =>
        ⟨.ok ⟨some ("Request path " ++ path ++ " does not exist"), 404, dh⟩, dh, []⟩
      | some methods =>
        match aget methods req.method with
        | none =>
          ⟨.ok ⟨some ("Request method " ++ req.method ++ " does not exist on path " ++ path),
                405, dh⟩, dh, []⟩
        | some entry => finishDispatch dh (tryBody entry req dh)

end Part000

namespace ModJs

/-- A registered entry of the base variant (`src/mod.js`): `verify` and
`sign` are arbitrary values used only for their truthiness. -/
structure MethodEntry where
  handler : Handler
  verify : JSValue
  sign : JSValue

/-- The per-path method table. -/
def MethodMap : Type := List (String × MethodEntry)

/-- `Router.#ROUTER_MAP` of the base variant. -/
def RouterMap : Type := List (String × MethodMap)

/-- `Router.Route(path, method, handler, { verify, sign })` of the base
variant: no validation of any kind, the entry is always inserted,
overwriting any previous entry for the same path and method. -/
def Route (m : RouterMap) (path method : String) (h : Handler)
    (verify sign : JSValue) : RouterMap :=
  let methods : MethodMap := (aget m path).getD []
  aset m path (aset methods method ⟨h, verify, sign⟩)

/-- `if (entry.verify && AUTH_VERIFY) user = await AUTH_VERIFY(req)` with
`user` initially `null`. -/
def verifyStage (entry : MethodEntry) (authVerify : Option VerifyFn) (req : Req) :
    Except Err JSValue × List Event :=
  if entry.verify.truthy && authVerify.isSome then
    match authVerify with
    | some f =>
      match f req with
      | .error e => (.error e, [.evVerifyCalled])
      | .ok v => (.ok v, [.evVerifyCalled])
    | none => (.ok .vNull, [])
  else (.ok .vNull, [])

/-- `if (entry.sign && AUTH_SIGN) await AUTH_SIGN(response, result)`: the
process-wide sign hook receives the encoded response and the handler
result. -/
def signStage (entry : MethodEntry) (authSign : Option SignFn) (resp : Resp)
    (result : JSValue) : Except Err Resp × List Event :=
  if entry.sign.truthy && authSign.isSome then
    match authSign with
    | some f =>
      match f resp result with
      | .error e => (.error e, [.evSignCalled result])
      | .ok r2 => (.ok r2, [.evSignCalled result])
    | none => (.ok resp, [])
  else (.ok resp, [])

/-- The whole try-block of the request callback of the base variant. -/
def tryBody (entry : MethodEntry) (authVerify : Option VerifyFn)
    (authSign : Option SignFn) (req : Req) (dh : Headers) :
    Except Err Resp × List Event :=
  let responseStatus := if req.method == "POST" then 201 else 200
  match verifyStage entry authVerify req with
  | (.error e, tr) => (.error e, tr)
  | (.ok user, tr1) =>
    match handlerStage entry.handler req user with
    | (.error e, tr2) => (.error e, tr1 ++ tr2)
    | (.ok result, tr2) =>
      match encode result responseStatus dh with
      | .error e => (.error e, tr1 ++ tr2)
      | .ok resp =>
        match signStage entry authSign resp result with
        | (r, tr3) => (r, tr1 ++ (tr2 ++ tr3))

/-- The request callback that `Router.Run` of the base variant registers with the
listener, with the configured static state passed explicitly. -/
def serve (apiPrefix : Option String) (authVerify : Option VerifyFn)
    (authSign : Option SignFn) (rmap : RouterMap) (dh : Headers) (req : Req) :
    DispatchOut :=
  match parseURL (stripURL apiPrefix req.url) with
  | none => ⟨.error "TypeError: Invalid URL", dh, []⟩
  | some u =>
    if req.method == "OPTIONS" then ⟨.ok ⟨none, 200, dh⟩, dh, []⟩
    else
      let path := routeKey u
      match aget rmap path with
      | none =>
        ⟨.ok ⟨some ("Request path " ++ path ++ " does not exist"), 404, dh⟩, dh, []⟩
      | some methods =>
        match aget methods req.method with
        | none =>
          ⟨.ok ⟨some ("Request method " ++ req.method ++ " does not exist on path " ++ path),
                405, dh⟩, dh, []⟩
        | some entry => finishDispatch dh (tryBody entry authVerify authSign req dh)

end ModJs

/-- A handler that returns the string "ok", used by concrete instances. -/
def okHandler : Handler := fun _ _ _ => .ok (.vString "ok")

/-- A small default-header template without a Content-Type entry. -/
def dh1 : Headers := [("Access-Control-Allow-Origin", "*")]

/-- Route options with no hooks provided. -/
def noHooks : Part000.RouteOpts := ⟨.undef, .undef, .undef, .vUndefined⟩

def c1map : Part000.RouterMap :=
  [("/a", [("PUT", ⟨okHandler, .undef, .undef, .undef, .vUndefined⟩)])]

def c1req : Req :=
  { url := "http://h/a", method := "PUT", contentType := none,
    jsonBody := none, textBody := none, formBody := none }

def c1wmap : Part000.RouterMap :=
  [("/b", [("POST",
    ⟨(fun _ _ _ => .ok (.vString "made") : Handler), .undef, .undef, .undef, .vUndefined⟩)])]

def c1wentry : Part000.MethodEntry :=
  ⟨(fun _ _ _ => .ok (.vString "made") : Handler), .undef, .undef, .undef, .vUndefined⟩

def c1wreq : Req :=
  { url := "http://h/b", method := "POST", contentType := none,
    jsonBody := none, textBody := none, formBody := none }

def c1wresp : Resp := ⟨some "made", 201, hset dh1 "Content-Type" "text/plain"⟩

def c2map : Part000.RouterMap :=
  [("/a", [("POST", ⟨okHandler, .undef, .undef, .undef, .vUndefined⟩)])]

def c2req : Req :=
  { url := "http://h/a", method := "POST", contentType := some "application/json",
    jsonBody := none, textBody := none, formBody := none }

def c3map : Part000.RouterMap :=
  [("/a", [("GET", ⟨okHandler, .undef, .undef, .undef, .vUndefined⟩)])]

def c3req : Req :=
  { url := "http://h/a", method := "GET", contentType := none,
    jsonBody := none, textBody := none, formBody := none }

def c4vf : VerifyFn := fun _ => .ok (.vString "usr")

def c4sf : SignFn := fun r _ => .ok r

def c4h : Handler := fun _ _ _ => .ok (.vString "res")

def c4map : ModJs.RouterMap := [("/a", [("POST", ⟨c4h, .vBool true, .vBool true⟩)])]

def c4req : Req :=
  { url := "http://h/a", method := "POST", contentType := none,
    jsonBody := none, textBody := none, formBody := none }

def c4wsf : SignFn := fun r _ => .ok r

def c4wlf : SignFn := fun r _ => .ok r

def c4wvf : VerifyFn := fun _ => .ok (.vString "u1")

def c4wh : Handler := fun _ _ _ => .ok (.vString "made")

def c4wentry : Part000.MethodEntry := ⟨c4wh, .fn c4wvf, .fn c4wsf, .fn c4wlf, .vUndefined⟩

def c4wmap : Part000.RouterMap := [("/b", [("POST", c4wentry)])]

def c4wreq : Req :=
  { url := "http://h/b", method := "POST", contentType := none,
    jsonBody := none, textBody := none, formBody := none }

def c4wresp : Resp := ⟨some "made", 201, hset dh1 "Content-Type" "text/plain"⟩

def c4bentry : ModJs.MethodEntry := ⟨c4h, .vBool true, .vBool true⟩

def c6map : Part000.RouterMap :=
  [("/a", [("GET", ⟨okHandler, .undef, .undef, .undef, .vUndefined⟩)])]

def c6req404 : Req :=
  { url := "http://h/zzz/x", method := "GET", contentType := none,
    jsonBody := none, textBody := none, formBody := none }

def c6req405 : Req :=
  { url := "http://h/a", method := "POST", contentType := none,
    jsonBody := none, textBody := none, formBody := none }

def c7entry : Part000.MethodEntry := ⟨okHandler, .undef, .undef, .undef, .vUndefined⟩

def c7map : Part000.RouterMap := [("/a", [("POST", c7entry)])]

def c7req : Req :=
  { url := "http://h/a", method := "POST", contentType := some "application/json",
    jsonBody := none, textBody := none, formBody := none }

def c8vf : VerifyFn := fun _ => .error (.customError "Forbidden" 403)

def c8entry : Part000.MethodEntry := ⟨okHandler, .fn c8vf, .undef, .undef, .vUndefined⟩

def c8map : Part000.RouterMap := [("/a", [("GET", c8entry)])]

def c8req : Req :=
  { url := "http://h/a", method := "GET", contentType := none,
    jsonBody := none, textBody := none, formBody := none }

def c8bentry : ModJs.MethodEntry := ⟨okHandler, .vBool true, .vUndefined⟩

def c8bmap : ModJs.RouterMap := [("/a", [("GET", c8bentry)])]

/-- A handler that reports whether it received the raw request payload. -/
def c9h : Handler := fun p _ _ =>
  match p with
  | .raw => .ok (.vString "raw-seen")
  | _ => .ok .vNull

def c9req : Req :=
  { url := "http://h/a", method := "POST",
    contentType := some "application/json; charset=utf-8",
    jsonBody := some "ignored", textBody := none, formBody := none }

def c10h : Handler := fun _ _ _ => .ok (.vNumber 5)

def c10entry : Part000.MethodEntry := ⟨c10h, .undef, .undef, .undef, .vUndefined⟩

def c10map : Part000.RouterMap := [("/a", [("POST", c10entry)])]

def c10req : Req :=
  { url := "http://h/a", method := "POST", contentType := none,
    jsonBody := none, textBody := none, formBody := none }

/-- The error mapper never lets a failure escape: whatever the try-block
produced, the listener receives a response. -/
theorem finishDispatch_ok (dh : Headers) (r : Except Err Resp × List Event) :
    ∃ resp, (finishDispatch dh r).result = Except.ok resp := by
  rcases r with ⟨e | resp, tr⟩
  · cases e <;> exact ⟨_, rfl⟩
  · exact ⟨_, rfl⟩

/-- When the URL parses, the method is not OPTIONS, and the route and
method both resolve, dispatch in the extended variant is the try-block
followed by the error mapper. -/
theorem serve_matched_ext (apiPrefix : Option String) (rmap : Part000.RouterMap)
    (dh : Headers) (req : Req) (u : ParsedURL) (methods : Part000.MethodMap)
    (entry : Part000.MethodEntry)
    (hu : parseURL (stripURL apiPrefix req.url) = some u)
    (hm : req.method ≠ "OPTIONS")
    (hp : aget rmap (routeKey u) = some methods)
    (he : aget methods req.method = some entry) :
    Part000.serve apiPrefix rmap dh req = finishDispatch dh (Part000.tryBody entry req dh) := by
  unfold Part000.serve
  rw [hu]
  simp [hm, hp, he]

/-- The base-variant analogue of `serve_matched_ext`. -/
theorem serve_matched_base (apiPrefix : Option String) (authVerify : Option VerifyFn)
    (authSign : Option SignFn) (rmap : ModJs.RouterMap)
    (dh : Headers) (req : Req) (u : ParsedURL) (methods : ModJs.MethodMap)
    (entry : ModJs.MethodEntry)
    (hu : parseURL (stripURL apiPrefix req.url) = some u)
    (hm : req.method ≠ "OPTIONS")
    (hp : aget rmap (routeKey u) = some methods)
    (he : aget methods req.method = some entry) :
    ModJs.serve apiPrefix authVerify authSign rmap dh req =
      finishDispatch dh (ModJs.tryBody entry authVerify authSign req dh) := by
  unfold ModJs.serve
  rw [hu]
  simp [hm, hp, he]

/-- A successful encode of anything but an already-constructed response
keeps the default status; an already-constructed response is returned
verbatim. -/
theorem encode_default_status (result : JSValue) (st : Nat) (hdrs : Headers) (resp : Resp)
    (h : encode result st hdrs = Except.ok resp) :
    ((∀ r0, result ≠ JSValue.vResponse r0) → resp.status = st) ∧
    (∀ r0, result = JSValue.vResponse r0 → resp = r0) := by
  cases result <;> simp [encode] at h
  case vResponse r0 =>
    refine ⟨fun hn => absurd rfl (hn r0), fun r1 hr => ?_⟩
    cases hr
    exact h.symm
  all_goals exact ⟨fun _ => by rw [← h], fun r0 hr => by simp at hr⟩

/-- A successful pre-stage run encodes the handler result with the default
status: 201 exactly for POST, 200 otherwise. -/
theorem preStages_encode (entry : Part000.MethodEntry) (req : Req) (dh : Headers)
    (payload result : JSValue) (resp : Resp) (tr : List Event)
    (hpre : Part000.preStages entry req dh = (.ok (payload, result, resp), tr)) :
    encode result (if req.method == "POST" then 201 else 200) dh = Except.ok resp := by
  simp only [Part000.preStages] at hpre
  rcases hv : Part000.verifyStage entry req with ⟨e | p, t1⟩ <;>
    rw [hv] at hpre <;> dsimp only at hpre
  · simp at hpre
  · rcases hh : handlerStage entry.handler req p with ⟨e2 | r2, t2⟩ <;>
      rw [hh] at hpre <;> dsimp only at hpre
    · simp at hpre
    · rcases hen : encode r2 (if req.method == "POST" then 201 else 200) dh with e3 | rr <;>
        rw [hen] at hpre <;> dsimp only at hpre
      · simp at hpre
      · simp only [Prod.mk.injEq, Except.ok.injEq] at hpre
        obtain ⟨⟨h1, h2, h3⟩, h4⟩ := hpre
        rw [← h2, ← h3]
        exact hen

/-- The verify stage of the extended variant never records a handler
invocation. -/
theorem verifyStage_ext_no_handler (entry : Part000.MethodEntry) (req : Req) :
    Event.evHandlerCalled ∉ (Part000.verifyStage entry req).2 := by
  cases hv : entry.verify with
  | undef => simp [Part000.verifyStage, hv, Part000.HookOpt.truthy]
  | nonFn v =>
    cases htv : v.truthy <;>
      simp [Part000.verifyStage, hv, Part000.HookOpt.truthy, htv]
  | fn f =>
    cases hf : f req <;>
      simp [Part000.verifyStage, hv, Part000.HookOpt.truthy, hf]

/-- C1 counterexample: a dispatched PUT request — a non-retrieval,
body-carrying method — whose handler returns a plain string gets response
status 200, not the 201 the claim requires for every non-retrieval
method. -/
theorem c1_counterexample :
    c1req.method = "PUT" ∧
    (Part000.serve none c1map dh1 c1req).result =
      Except.ok ⟨some "ok", 200, hset dh1 "Content-Type" "text/plain"⟩ :=
  ⟨rfl, rfl⟩

/-- C1 (amended): for every dispatched request whose handler returns a
value other than an already-constructed response object, the response
status defaults to 201 exactly when the method is POST and to 200 for
every other method (including other non-retrieval methods such as PUT);
when the handler returns a full response object, that object — status
included — is used verbatim. -/
theorem c1_amended_thm (apiPrefix : Option String) (rmap : Part000.RouterMap)
    (dh : Headers) (req : Req) (u : ParsedURL) (methods : Part000.MethodMap)
    (entry : Part000.MethodEntry) (payload result : JSValue) (resp : Resp)
    (tr : List Event)
    (hu : parseURL (stripURL apiPrefix req.url) = some u)
    (hm : req.method ≠ "OPTIONS")
    (hp : aget rmap (routeKey u) = some methods)
    (he : aget methods req.method = some entry)
    (hsig : entry.sign = Part000.HookOpt.undef)
    (hlog : entry.login = Part000.HookOpt.undef)
    (hpre : Part000.preStages entry req dh = (.ok (payload, result, resp), tr)) :
    (Part000.serve apiPrefix rmap dh req).result = Except.ok resp ∧
    ((∀ r0, result ≠ JSValue.vResponse r0) →
      resp.status = (if req.method == "POST" then 201 else 200)) ∧
    (∀ r0, result = JSValue.vResponse r0 → resp = r0) := by
  have hserve := serve_matched_ext apiPrefix rmap dh req u methods entry hu hm hp he
  have htb : Part000.tryBody entry req dh = (.ok resp, tr) := by
    simp only [Part000.tryBody]
    rw [hpre]
    dsimp only
    simp [Part000.postHooks, Part000.signStage, Part000.loginStage, hsig, hlog,
      Part000.HookOpt.truthy]
  have hed := encode_default_status result (if req.method == "POST" then 201 else 200) dh resp
    (preStages_encode entry req dh payload result resp tr hpre)
  refine ⟨?_, hed.1, hed.2⟩
  rw [hserve, htb]
  rfl

/-- C1 witness: a concrete POST request through the dispatcher, with every
hypothesis of the amended theorem discharged by evaluation; the string
result gets status 201. -/
theorem c1_amended_witness :
    Part000.preStages c1wentry c1wreq dh1 =
      (.ok (JSValue.vNull, JSValue.vString "made", c1wresp), [Event.evHandlerCalled]) ∧
    (Part000.serve none c1wmap dh1 c1wreq).result = Except.ok c1wresp ∧
    c1wresp.status = (if c1wreq.method == "POST" then 201 else 200) ∧
    c1wresp.status = 201 := by
  have T := c1_amended_thm none c1wmap dh1 c1wreq ⟨"/b", ""⟩
    [("POST", c1wentry)] c1wentry JSValue.vNull (JSValue.vString "made") c1wresp
    [Event.evHandlerCalled] (by rfl) (by decide) (by rfl) (by rfl) (by rfl) (by rfl) (by rfl)
  exact ⟨by rfl, T.1, T.2.1 (fun r0 => by simp), by rfl⟩

/-- C2: evidence for the code bug.  A matched POST with content type
application/json and an unparsable body raises a CustomError, and the
error mapper runs Object.assign on the shared default-header template
itself: after the request the template has gained a Content-Type entry —
it was mutated in place, contrary to the cloned-never-mutated design (the
success path does clone, via structuredClone). -/
theorem c2_defaults_mutated :
    (Part000.serve none c2map dh1 c2req).finalDefaults =
      [("Access-Control-Allow-Origin", "*"), ("Content-Type", "text/plain")] ∧
    (Part000.serve none c2map dh1 c2req).finalDefaults ≠ dh1 ∧
    (Part000.serve none c2map dh1 c2req).result =
      Except.ok ⟨some "Request body is not a valid JSON", 400,
        [("Access-Control-Allow-Origin", "*"), ("Content-Type", "text/plain")]⟩ :=
  ⟨rfl, by decide, rfl⟩

/-- C3 counterexample: with api_prefix "http" configured, stripping the
prefix from "http://h/a" leaves "://h/a", whose re-parse throws before the
try-block — the error escapes to the listener uncaught, even though the
route is registered. -/
theorem c3_counterexample :
    (Part000.serve (some "http") c3map dh1 c3req).result =
      Except.error "TypeError: Invalid URL" :=
  rfl

/-- C3 (amended): for every inbound request whose prefix-stripped URL
re-parses successfully, every error raised during per-request processing
is caught at the dispatcher boundary and converted into an HTTP response;
only a failure of the prefix-stripping re-parse itself, which happens
before the try-block, can escape. -/
theorem c3_amended_thm (apiPrefix : Option String) (rmap : Part000.RouterMap)
    (dh : Headers) (req : Req) (u : ParsedURL)
    (hu : parseURL (stripURL apiPrefix req.url) = some u) :
    ∃ r, (Part000.serve apiPrefix rmap dh req).result = Except.ok r := by
  unfold Part000.serve
  rw [hu]
  dsimp only
  split
  · exact ⟨_, rfl⟩
  · split
    · exact ⟨_, rfl⟩
    · split
      · exact ⟨_, rfl⟩
      · exact finishDispatch_ok dh _

/-- C3 witness: a concrete request whose URL parses, with the parse
hypothesis discharged by evaluation. -/
theorem c3_amended_witness :
    parseURL (stripURL none c3req.url) = some ⟨"/a", ""⟩ ∧
    ∃ r, (Part000.serve none c3map dh1 c3req).result = Except.ok r :=
  ⟨by decide, c3_amended_thm none c3map dh1 c3req ⟨"/a", ""⟩ (by decide)⟩

/-- C4 counterexample: in the base variant, a route with both hook flags
set, a verify hook returning "usr" and a handler returning "res", invokes
the sign hook with the handler result "res" — not with the verify result
"usr" as the claim states; no invocation with the verify result occurs. -/
theorem c4_counterexample :
    c4vf c4req = Except.ok (JSValue.vString "usr") ∧
    c4h Payload.raw (JSValue.vString "usr") c4req = Except.ok (JSValue.vString "res") ∧
    (ModJs.serve none (some c4vf) (some c4sf) c4map dh1 c4req).trace =
      [Event.evVerifyCalled, Event.evHandlerCalled,
       Event.evSignCalled (JSValue.vString "res")] ∧
    Event.evSignCalled (JSValue.vString "usr") ∉
      (ModJs.serve none (some c4vf) (some c4sf) c4map dh1 c4req).trace :=
  ⟨rfl, rfl, rfl, by decide⟩

/-- C4 (amended): in the extended variant, for every matched route with
attached sign and login hook functions, after encoding the sign hook is
invoked with (response, verify-result) and then the login hook with
(response, handler-result) — sign first, login second — before the
response is returned; in the base variant, the process-wide sign hook is
invoked with (response, handler-result) and no login hook exists. -/
theorem c4_amended_thm :
    (∀ (apiPrefix : Option String) (rmap : Part000.RouterMap) (dh : Headers) (req : Req)
      (u : ParsedURL) (methods : Part000.MethodMap) (entry : Part000.MethodEntry)
      (payload result : JSValue) (resp resp2 resp3 : Resp) (tr : List Event)
      (sf lf : SignFn),
      parseURL (stripURL apiPrefix req.url) = some u →
      req.method ≠ "OPTIONS" →
      aget rmap (routeKey u) = some methods →
      aget methods req.method = some entry →
      Part000.preStages entry req dh = (.ok (payload, result, resp), tr) →
      entry.sign = Part000.HookOpt.fn sf →
      entry.login = Part000.HookOpt.fn lf →
      sf resp payload = .ok resp2 →
      lf resp2 result = .ok resp3 →
      Part000.serve apiPrefix rmap dh req =
        ⟨.ok resp3, dh, tr ++ [.evSignCalled payload, .evLoginCalled result]⟩) ∧
    (∀ (apiPrefix : Option String) (authVerify : Option VerifyFn) (sf : SignFn)
      (rmap : ModJs.RouterMap) (dh : Headers) (req : Req) (u : ParsedURL)
      (methods : ModJs.MethodMap) (entry : ModJs.MethodEntry)
      (user result : JSValue) (resp resp2 : Resp) (tr1 tr2 : List Event),
      parseURL (stripURL apiPrefix req.url) = some u →
      req.method ≠ "OPTIONS" →
      aget rmap (routeKey u) = some methods →
      aget methods req.method = some entry →
      ModJs.verifyStage entry authVerify req = (.ok user, tr1) →
      handlerStage entry.handler req user = (.ok result, tr2) →
      encode result (if req.method == "POST" then 201 else 200) dh = .ok resp →
      entry.sign.truthy = true →
      sf resp result = .ok resp2 →
      ModJs.serve apiPrefix authVerify (some sf) rmap dh req =
        ⟨.ok resp2, dh, tr1 ++ (tr2 ++ [.evSignCalled result])⟩) := by
  constructor
  · intro apiPrefix rmap dh req u methods entry payload result resp resp2 resp3 tr sf lf
      hu hm hp he hpre hsig hlog hs hl
    have hserve := serve_matched_ext apiPrefix rmap dh req u methods entry hu hm hp he
    have htb : Part000.tryBody entry req dh =
        (.ok resp3, tr ++ [.evSignCalled payload, .evLoginCalled result]) := by
      simp only [Part000.tryBody]
      rw [hpre]
      dsimp only
      simp [Part000.postHooks, Part000.signStage, Part000.loginStage, hsig, hlog,
        Part000.HookOpt.truthy, hs, hl]
    rw [hserve, htb]
    rfl
  · intro apiPrefix authVerify sf rmap dh req u methods entry user result resp resp2 tr1 tr2
      hu hm hp he hv hh hen hsf hs
    have hserve := serve_matched_base apiPrefix authVerify (some sf) rmap dh req u methods
      entry hu hm hp he
    have htb : ModJs.tryBody entry authVerify (some sf) req dh =
        (.ok resp2, tr1 ++ (tr2 ++ [.evSignCalled result])) := by
      simp only [ModJs.tryBody]
      rw [hv]
      dsimp only
      rw [hh]
      dsimp only
      rw [hen]
      dsimp only
      simp [ModJs.signStage, hsf, hs]
    rw [hserve, htb]
    rfl

/-- C4 witness: one concrete run per variant, every hypothesis discharged
by evaluation; the extended trace shows sign (with the verify result)
before login (with the handler result), the base trace shows sign with the
handler result. -/
theorem c4_amended_witness :
    Part000.preStages c4wentry c4wreq dh1 =
      (.ok (JSValue.vString "u1", JSValue.vString "made", c4wresp),
       [Event.evVerifyCalled, Event.evHandlerCalled]) ∧
    Part000.serve none c4wmap dh1 c4wreq =
      ⟨.ok c4wresp, dh1,
       [Event.evVerifyCalled, Event.evHandlerCalled,
        Event.evSignCalled (JSValue.vString "u1"),
        Event.evLoginCalled (JSValue.vString "made")]⟩ ∧
    ModJs.serve none (some c4vf) (some c4sf) c4map dh1 c4req =
      ⟨.ok ⟨some "res", 201, hset dh1 "Content-Type" "text/plain"⟩, dh1,
       [Event.evVerifyCalled, Event.evHandlerCalled,
        Event.evSignCalled (JSValue.vString "res")]⟩ := by
  refine ⟨by rfl, ?_, ?_⟩
  · exact c4_amended_thm.1 none c4wmap dh1 c4wreq ⟨"/b", ""⟩ [("POST", c4wentry)] c4wentry
      (JSValue.vString "u1") (JSValue.vString "made") c4wresp c4wresp c4wresp
      [Event.evVerifyCalled, Event.evHandlerCalled] c4wsf c4wlf
      (by rfl) (by decide) (by rfl) (by rfl) (by rfl) (by rfl) (by rfl) (by rfl) (by rfl)
  · exact c4_amended_thm.2 none (some c4vf) c4sf c4map dh1 c4req ⟨"/a", ""⟩
      [("POST", c4bentry)] c4bentry (JSValue.vString "usr") (JSValue.vString "res")
      ⟨some "res", 201, hset dh1 "Content-Type" "text/plain"⟩
      ⟨some "res", 201, hset dh1 "Content-Type" "text/plain"⟩
      [Event.evVerifyCalled] [Event.evHandlerCalled]
      (by rfl) (by decide) (by rfl) (by rfl) (by rfl) (by rfl) (by rfl) (by rfl) (by rfl)

/-- C5 counterexample: base-variant registration with a provided
non-callable verify value succeeds and stores the entry instead of failing
with a configuration error. -/
theorem c5_counterexample :
    ((aget (ModJs.Route [] "/a" "POST" okHandler (.vString "tok") .vUndefined) "/a").bind
        (fun mm => aget mm "POST")).map (fun e => e.verify) =
      some (JSValue.vString "tok") ∧
    JSValue.isCallable (JSValue.vString "tok") = false :=
  ⟨rfl, rfl⟩

/-- C5 (amended): in the extended variant, Route fails with a
configuration error whenever a provided verify, sign or login value is
truthy and not callable, and succeeds whenever no provided hook is a
truthy non-function — in particular whenever every provided hook is
callable — with the sole effect of inserting or overwriting the entry for
(path, method); in the base variant, Route performs no validation and
always inserts or overwrites the entry. -/
theorem c5_amended_thm :
    (∀ (m : Part000.RouterMap) (path method : String) (h : Handler)
      (opts : Part000.RouteOpts),
      opts.verify.badValue = false → opts.sign.badValue = false →
      opts.login.badValue = false →
      Part000.Route m path method h opts =
        .ok (aset m path (aset ((aget m path).getD []) method
          ⟨h, opts.verify, opts.sign, opts.login, opts.raw⟩))) ∧
    (∀ (m : Part000.RouterMap) (path method : String) (h : Handler)
      (opts : Part000.RouteOpts),
      (opts.verify.badValue = true ∨ opts.sign.badValue = true ∨
        opts.login.badValue = true) →
      ∃ msg, Part000.Route m path method h opts = .error msg) ∧
    (∀ (m : ModJs.RouterMap) (path method : String) (h : Handler)
      (verify sign : JSValue),
      ModJs.Route m path method h verify sign =
        aset m path (aset ((aget m path).getD []) method ⟨h, verify, sign⟩)) := by
  refine ⟨?_, ?_, ?_⟩
  · intro m path method h opts h1 h2 h3
    simp [Part000.Route, h1, h2, h3]
  · intro m path method h opts hbad
    cases h1 : opts.verify.badValue
    · cases h2 : opts.sign.badValue
      · cases h3 : opts.login.badValue
        · rcases hbad with hb | hb | hb <;> simp_all
        · exact ⟨"The \"login\" option must be a function",
            by simp [Part000.Route, h1, h2, h3]⟩
      · exact ⟨"The \"sign\" option must be a function",
          by simp [Part000.Route, h1, h2]⟩
    · exact ⟨"The \"verify\" option must be a function",
        by simp [Part000.Route, h1]⟩
  · intro m path method h verify sign
    rfl

/-- C5 witness: a hook-free extended registration succeeds and inserts;
an extended registration with a truthy non-callable verify fails; a base
registration inserts unconditionally.  All hypotheses are discharged by
evaluation. -/
theorem c5_amended_witness :
    Part000.Route [] "/a" "POST" okHandler noHooks =
      .ok [("/a", [("POST", ⟨okHandler, .undef, .undef, .undef, .vUndefined⟩)])] ∧
    Part000.HookOpt.badValue
      (Part000.HookOpt.nonFn (JSValue.vString "x") : Part000.HookOpt VerifyFn) = true ∧
    (∃ msg, Part000.Route [] "/a" "POST" okHandler
      ⟨.nonFn (.vString "x"), .undef, .undef, .vUndefined⟩ = .error msg) ∧
    ModJs.Route [] "/b" "GET" okHandler .vUndefined .vUndefined =
      [("/b", [("GET", ⟨okHandler, .vUndefined, .vUndefined⟩)])] := by
  refine ⟨?_, by rfl, ?_, ?_⟩
  · exact c5_amended_thm.1 [] "/a" "POST" okHandler noHooks rfl rfl rfl
  · exact c5_amended_thm.2.1 [] "/a" "POST" okHandler
      ⟨.nonFn (.vString "x"), .undef, .undef, .vUndefined⟩ (Or.inl rfl)
  · exact c5_amended_thm.2.2 [] "/b" "GET" okHandler .vUndefined .vUndefined

/-- C6: for every non-OPTIONS request (with a parseable URL) whose route
key is absent from the registry, the response is 404 with a message naming
the unmatched path; when the route key is present but the method has no
entry, the response is 405 with a message naming both the path and the
method. -/
theorem c6_thm (apiPrefix : Option String) (rmap : Part000.RouterMap) (dh : Headers)
    (req : Req) (u : ParsedURL)
    (hu : parseURL (stripURL apiPrefix req.url) = some u)
    (hm : req.method ≠ "OPTIONS") :
    (aget rmap (routeKey u) = none →
      Part000.serve apiPrefix rmap dh req =
        ⟨.ok ⟨some ("Request path " ++ routeKey u ++ " does not exist"), 404, dh⟩,
          dh, []⟩) ∧
    (∀ methods, aget rmap (routeKey u) = some methods →
      aget methods req.method = none →
      Part000.serve apiPrefix rmap dh req =
        ⟨.ok ⟨some ("Request method " ++ req.method ++ " does not exist on path " ++
            routeKey u), 405, dh⟩, dh, []⟩) := by
  constructor
  · intro hnone
    unfold Part000.serve
    rw [hu]
    dsimp only
    simp [hm, hnone]
  · intro methods hsome hmeth
    unfold Part000.serve
    rw [hu]
    dsimp only
    simp [hm, hsome, hmeth]

/-- C6 witness: a GET for an unregistered first segment yields the 404
with its message, a POST on a GET-only path yields the 405 with its
message; all hypotheses are discharged by evaluation. -/
theorem c6_witness :
    aget c6map (routeKey ⟨"/zzz/x", ""⟩) = none ∧
    Part000.serve none c6map dh1 c6req404 =
      ⟨.ok ⟨some "Request path /zzz does not exist", 404, dh1⟩, dh1, []⟩ ∧
    aget c6map (routeKey ⟨"/a", ""⟩) =
      some [("GET", ⟨okHandler, .undef, .undef, .undef, .vUndefined⟩)] ∧
    Part000.serve none c6map dh1 c6req405 =
      ⟨.ok ⟨some "Request method POST does not exist on path /a", 405, dh1⟩, dh1, []⟩ := by
  refine ⟨by rfl, ?_, by rfl, ?_⟩
  · exact (c6_thm none c6map dh1 c6req404 ⟨"/zzz/x", ""⟩ (by rfl) (by decide)).1 (by rfl)
  · exact (c6_thm none c6map dh1 c6req405 ⟨"/a", ""⟩ (by rfl) (by decide)).2
      [("GET", ⟨okHandler, .undef, .undef, .undef, .vUndefined⟩)] (by rfl) (by rfl)

/-- C7: for every matched non-GET request whose content type is exactly
application/json, text/plain or multipart/form-data and whose body fails to
decode, the response is 400 with the corresponding message — "Request body
is not a valid JSON" / STRING / FORMDATA — and the handler is not
invoked. -/
theorem c7_thm (apiPrefix : Option String) (rmap : Part000.RouterMap) (dh : Headers)
    (req : Req) (u : ParsedURL) (methods : Part000.MethodMap)
    (entry : Part000.MethodEntry) (payload : JSValue) (tr1 : List Event)
    (hu : parseURL (stripURL apiPrefix req.url) = some u)
    (hm : req.method ≠ "OPTIONS")
    (hp : aget rmap (routeKey u) = some methods)
    (he : aget methods req.method = some entry)
    (hg : req.method ≠ "GET")
    (hv : Part000.verifyStage entry req = (.ok payload, tr1)) :
    (req.contentType = some "application/json" → req.jsonBody = none →
      Part000.serve apiPrefix rmap dh req =
        ⟨.ok ⟨some "Request body is not a valid JSON", 400,
            hset dh "Content-Type" "text/plain"⟩,
          hset dh "Content-Type" "text/plain", tr1⟩ ∧
      Event.evHandlerCalled ∉ (Part000.serve apiPrefix rmap dh req).trace) ∧
    (req.contentType = some "text/plain" → req.textBody = none →
      Part000.serve apiPrefix rmap dh req =
        ⟨.ok ⟨some "Request body is not a valid STRING", 400,
            hset dh "Content-Type" "text/plain"⟩,
          hset dh "Content-Type" "text/plain", tr1⟩ ∧
      Event.evHandlerCalled ∉ (Part000.serve apiPrefix rmap dh req).trace) ∧
    (req.contentType = some "multipart/form-data" → req.formBody = none →
      Part000.serve apiPrefix rmap dh req =
        ⟨.ok ⟨some "Request body is not a valid FORMDATA", 400,
            hset dh "Content-Type" "text/plain"⟩,
          hset dh "Content-Type" "text/plain", tr1⟩ ∧
      Event.evHandlerCalled ∉ (Part000.serve apiPrefix rmap dh req).trace) := by
  have hserve := serve_matched_ext apiPrefix rmap dh req u methods entry hu hm hp he
  have hnv := verifyStage_ext_no_handler entry req
  rw [hv] at hnv
  refine ⟨?_, ?_, ?_⟩ <;> intro hct hbody
  · have hhs : handlerStage entry.handler req payload =
        (.error (.customError "Request body is not a valid JSON" 400), []) := by
      unfold handlerStage
      simp [hg, hct, hbody]
    have htb : Part000.tryBody entry req dh =
        (.error (.customError "Request body is not a valid JSON" 400), tr1) := by
      simp only [Part000.tryBody, Part000.preStages]
      rw [hv]
      dsimp only
      rw [hhs]
      dsimp only
      simp
    rw [hserve, htb]
    exact ⟨rfl, by simpa using hnv⟩
  · have hhs : handlerStage entry.handler req payload =
        (.error (.customError "Request body is not a valid STRING" 400), []) := by
      unfold handlerStage
      simp [hg, hct, hbody]
    have htb : Part000.tryBody entry req dh =
        (.error (.customError "Request body is not a valid STRING" 400), tr1) := by
      simp only [Part000.tryBody, Part000.preStages]
      rw [hv]
      dsimp only
      rw [hhs]
      dsimp only
      simp
    rw [hserve, htb]
    exact ⟨rfl, by simpa using hnv⟩
  · have hhs : handlerStage entry.handler req payload =
        (.error (.customError "Request body is not a valid FORMDATA" 400), []) := by
      unfold handlerStage
      simp [hg, hct, hbody]
    have htb : Part000.tryBody entry req dh =
        (.error (.customError "Request body is not a valid FORMDATA" 400), tr1) := by
      simp only [Part000.tryBody, Part000.preStages]
      rw [hv]
      dsimp only
      rw [hhs]
      dsimp only
      simp
    rw [hserve, htb]
    exact ⟨rfl, by simpa using hnv⟩

/-- C7 witness: a matched POST with content type application/json and a
failing body read yields the 400 JSON message and no handler event; all
hypotheses are discharged by evaluation. -/
theorem c7_witness :
    Part000.verifyStage c7entry c7req = (.ok JSValue.vNull, []) ∧
    c7req.contentType = some "application/json" ∧
    c7req.jsonBody = none ∧
    (Part000.serve none c7map dh1 c7req =
      ⟨.ok ⟨some "Request body is not a valid JSON", 400,
          hset dh1 "Content-Type" "text/plain"⟩,
        hset dh1 "Content-Type" "text/plain", []⟩ ∧
     Event.evHandlerCalled ∉ (Part000.serve none c7map dh1 c7req).trace) := by
  refine ⟨by rfl, by rfl, by rfl, ?_⟩
  exact (c7_thm none c7map dh1 c7req ⟨"/a", ""⟩ [("POST", c7entry)] c7entry
    JSValue.vNull [] (by rfl) (by decide) (by rfl) (by rfl) (by decide) (by rfl)).1
    rfl rfl

/-- C8: in both variants, when the verify hook of a matched route throws a
CustomError with status 403, the response has status 403 (plain text, the
error message as body) and the handler is never invoked. -/
theorem c8_thm :
    (∀ (apiPrefix : Option String) (rmap : Part000.RouterMap) (dh : Headers)
      (req : Req) (u : ParsedURL) (methods : Part000.MethodMap)
      (entry : Part000.MethodEntry) (f : VerifyFn) (m : String),
      parseURL (stripURL apiPrefix req.url) = some u →
      req.method ≠ "OPTIONS" →
      aget rmap (routeKey u) = some methods →
      aget methods req.method = some entry →
      entry.verify = Part000.HookOpt.fn f →
      f req = .error (.customError m 403) →
      Part000.serve apiPrefix rmap dh req =
        ⟨.ok ⟨some m, 403, hset dh "Content-Type" "text/plain"⟩,
          hset dh "Content-Type" "text/plain", [.evVerifyCalled]⟩ ∧
      Event.evHandlerCalled ∉ (Part000.serve apiPrefix rmap dh req).trace) ∧
    (∀ (apiPrefix : Option String) (authSign : Option SignFn)
      (rmap : ModJs.RouterMap) (dh : Headers) (req : Req) (u : ParsedURL)
      (methods : ModJs.MethodMap) (entry : ModJs.MethodEntry) (f : VerifyFn)
      (m : String),
      parseURL (stripURL apiPrefix req.url) = some u →
      req.method ≠ "OPTIONS" →
      aget rmap (routeKey u) = some methods →
      aget methods req.method = some entry →
      entry.verify.truthy = true →
      f req = .error (.customError m 403) →
      ModJs.serve apiPrefix (some f) authSign rmap dh req =
        ⟨.ok ⟨some m, 403, hset dh "Content-Type" "text/plain"⟩,
          hset dh "Content-Type" "text/plain", [.evVerifyCalled]⟩ ∧
      Event.evHandlerCalled ∉ (ModJs.serve apiPrefix (some f) authSign rmap dh req).trace) := by
  constructor
  · intro apiPrefix rmap dh req u methods entry f m hu hm hp he hvf hf
    have hserve := serve_matched_ext apiPrefix rmap dh req u methods entry hu hm hp he
    have htb : Part000.tryBody entry req dh =
        (.error (.customError m 403), [.evVerifyCalled]) := by
      simp only [Part000.tryBody, Part000.preStages, Part000.verifyStage]
      simp [hvf, hf, Part000.HookOpt.truthy]
    rw [hserve, htb]
    exact ⟨rfl, by simp [finishDispatch]⟩
  · intro apiPrefix authSign rmap dh req u methods entry f m hu hm hp he hvt hf
    have hserve := serve_matched_base apiPrefix (some f) authSign rmap dh req u methods
      entry hu hm hp he
    have htb : ModJs.tryBody entry (some f) authSign req dh =
        (.error (.customError m 403), [.evVerifyCalled]) := by
      simp only [ModJs.tryBody, ModJs.verifyStage]
      simp [hvt, hf]
    rw [hserve, htb]
    exact ⟨rfl, by simp [finishDispatch]⟩

/-- C8 witness: one concrete 403-throwing verify hook per variant; all
hypotheses are discharged by evaluation, the handler event is absent from
both traces. -/
theorem c8_witness :
    c8entry.verify = Part000.HookOpt.fn c8vf ∧
    c8vf c8req = .error (.customError "Forbidden" 403) ∧
    (Part000.serve none c8map dh1 c8req =
      ⟨.ok ⟨some "Forbidden", 403, hset dh1 "Content-Type" "text/plain"⟩,
        hset dh1 "Content-Type" "text/plain", [.evVerifyCalled]⟩ ∧
     Event.evHandlerCalled ∉ (Part000.serve none c8map dh1 c8req).trace) ∧
    (ModJs.serve none (some c8vf) none c8bmap dh1 c8req =
      ⟨.ok ⟨some "Forbidden", 403, hset dh1 "Content-Type" "text/plain"⟩,
        hset dh1 "Content-Type" "text/plain", [.evVerifyCalled]⟩ ∧
     Event.evHandlerCalled ∉ (ModJs.serve none (some c8vf) none c8bmap dh1 c8req).trace) := by
  refine ⟨by rfl, by rfl, ?_, ?_⟩
  · exact c8_thm.1 none c8map dh1 c8req ⟨"/a", ""⟩ [("GET", c8entry)] c8entry c8vf
      "Forbidden" (by rfl) (by decide) (by rfl) (by rfl) (by rfl) (by rfl)
  · exact c8_thm.2 none none c8bmap dh1 c8req ⟨"/a", ""⟩ [("GET", c8bentry)] c8bentry
      c8vf "Forbidden" (by rfl) (by decide) (by rfl) (by rfl) (by rfl) (by rfl)

/-- C9: body-decoding strategy selection is by exact string equality on
the content-type header — for every non-GET request whose content type is
absent or not exactly one of the three decodable values (including
parameterized values such as "application/json; charset=utf-8"), no
decoding is attempted: the raw request object itself is passed to the
handler, so the stage returns exactly the handler output and no
body-decode error can occur. -/
theorem c9_thm (h : Handler) (req : Req) (payload : JSValue)
    (hg : req.method ≠ "GET") :
    (req.contentType = none →
      handlerStage h req payload = (h .raw payload req, [.evHandlerCalled])) ∧
    (∀ ct, req.contentType = some ct →
      ct ≠ "application/json" → ct ≠ "text/plain" → ct ≠ "multipart/form-data" →
      handlerStage h req payload = (h .raw payload req, [.evHandlerCalled])) := by
  constructor
  · intro hct
    unfold handlerStage
    simp [hg, hct]
  · intro ct hct h1 h2 h3
    unfold handlerStage
    simp [hg, hct, h1, h2, h3]

/-- C9 witness: a POST carrying "application/json; charset=utf-8" (and
even a readable JSON body) is handed to the handler raw, undecoded; all
hypotheses are discharged by evaluation. -/
theorem c9_witness :
    c9req.method ≠ "GET" ∧
    c9req.contentType = some "application/json; charset=utf-8" ∧
    handlerStage c9h c9req JSValue.vNull =
      (c9h .raw JSValue.vNull c9req, [.evHandlerCalled]) ∧
    c9h .raw JSValue.vNull c9req = .ok (.vString "raw-seen") := by
  refine ⟨by decide, by rfl, ?_, by rfl⟩
  exact (c9_thm c9h c9req JSValue.vNull (by decide)).2 "application/json; charset=utf-8"
    rfl (by decide) (by decide) (by decide)

/-- C10: when the handler of a matched route returns a value of a runtime
type covered by no encoder case — a symbol, a function, or an ordinary
non-bigint number — the encoder falls through to its default branch and
the request yields a 500 response whose body is "Return type of controller
has no defined processor". -/
theorem c10_thm (apiPrefix : Option String) (rmap : Part000.RouterMap) (dh : Headers)
    (req : Req) (u : ParsedURL) (methods : Part000.MethodMap)
    (entry : Part000.MethodEntry) (payload r : JSValue) (tr1 tr2 : List Event)
    (hu : parseURL (stripURL apiPrefix req.url) = some u)
    (hm : req.method ≠ "OPTIONS")
    (hp : aget rmap (routeKey u) = some methods)
    (he : aget methods req.method = some entry)
    (hv : Part000.verifyStage entry req = (.ok payload, tr1))
    (hh : handlerStage entry.handler req payload = (.ok r, tr2))
    (hr : r = .vSymbol ∨ r = .vFunction ∨ ∃ n, r = .vNumber n) :
    Part000.serve apiPrefix rmap dh req =
      ⟨.ok ⟨some "Return type of controller has no defined processor", 500, dh⟩,
        dh, tr1 ++ tr2⟩ := by
  have hserve := serve_matched_ext apiPrefix rmap dh req u methods entry hu hm hp he
  have hen : encode r (if req.method == "POST" then 201 else 200) dh =
      .error (.jsError "Return type of controller has no defined processor") := by
    rcases hr with rfl | rfl | ⟨n, rfl⟩ <;> rfl
  have htb : Part000.tryBody entry req dh =
      (.error (.jsError "Return type of controller has no defined processor"),
        tr1 ++ tr2) := by
    simp only [Part000.tryBody, Part000.preStages]
    rw [hv]
    dsimp only
    rw [hh]
    dsimp only
    rw [hen]
  rw [hserve, htb]
  rfl

/-- C10 witness: a handler returning the ordinary number 5 drives the
dispatcher to the 500 no-processor response; all hypotheses are discharged
by evaluation. -/
theorem c10_witness :
    handlerStage c10entry.handler c10req JSValue.vNull =
      (.ok (.vNumber 5), [.evHandlerCalled]) ∧
    Part000.serve none c10map dh1 c10req =
      ⟨.ok ⟨some "Return type of controller has no defined processor", 500, dh1⟩,
        dh1, [.evHandlerCalled]⟩ := by
  refine ⟨by rfl, ?_⟩
  exact c10_thm none c10map dh1 c10req ⟨"/a", ""⟩ [("POST", c10entry)] c10entry
    JSValue.vNull (.vNumber 5) [] [.evHandlerCalled] (by rfl) (by decide) (by rfl)
    (by rfl) (by rfl) (by rfl) (Or.inr (Or.inr ⟨5, rfl⟩))
